import Mathlib

/-!
Verification of the health-agent backend (intent routing, lexical
extraction, session state machine, CGM severity classification).

The definitions below are a shallow embedding of the Python source:
`main.py` (HealthAgentSystem), `agents/cgm_agent.py` (CGMAgent),
`agents/mood_tracker_agent.py` (MoodTrackerAgent) and the thin guards of
the other agents.  Python strings are embedded as `List Char`, floats as
`ℚ` (all values involved are decimal literals, which `float` represents
the same way for every comparison performed by the code), dictionaries
returned by handlers as structures / inductive outcome types, and
database writes as an explicit list of `DbWrite` events.  The specific
regular expressions used by the source are compiled by hand into
scanning functions; each such function documents the pattern it
implements and why the translation is exact (the patterns involved have
no essential backtracking: every quantifier is followed by a character
class disjoint from the quantified one).
-/

/-! ## String primitives (Python `str` semantics on `List Char`) -/

/-- Python whitespace for `str.strip` and regex `\s` (ASCII part):
space, tab, newline, carriage return, vertical tab, form feed. -/
def isPySpace (c : Char) : Bool :=
  c = ' ' || c = '\t' || c = '\n' || c = '\r' || c = '\x0b' || c = '\x0c'

/-- ASCII digit, for regex `\d` as used by the source on chat input. -/
def isAsciiDigit (c : Char) : Bool :=
  '0' ≤ c && c ≤ '9'

/-- Regex `\w` word character (ASCII part): alphanumeric or underscore. -/
def isWordChar (c : Char) : Bool :=
  isAsciiDigit c || ('a' ≤ c && c ≤ 'z') || ('A' ≤ c && c ≤ 'Z') || c = '_'

/-- `needle.isPrefixOf hay` written out, Python `str.startswith`. -/
def startsWithL : List Char → List Char → Bool
  | [], _ => true
  | _ :: _, [] => false
  | a :: as, b :: bs => a == b && startsWithL as bs

/-- Python `needle in hay` substring test. -/
def containsL (needle : List Char) : List Char → Bool
  | [] => needle.isEmpty
  | c :: t => startsWithL needle (c :: t) || containsL needle t

/-- Python `str.lower` (the source only feeds ASCII chat text through it). -/
def lowerL (cs : List Char) : List Char :=
  cs.map Char.toLower

/-- Python `str.strip`. -/
def stripL (cs : List Char) : List Char :=
  ((cs.dropWhile isPySpace).reverse.dropWhile isPySpace).reverse

/-- Substring test lifted to a `String` needle: `occursIn w s` is Python
`w in s` for the lowered input `s`. -/
def occursIn (w : String) (s : List Char) : Bool :=
  containsL w.toList s

/-- Number of members of `ws` occurring in `s`; the source computes
`sum(k for word in ws if word in input_lower)` with a fixed `k`, so each
list member contributes once however often it occurs. -/
def countHits (ws : List String) (s : List Char) : Nat :=
  (ws.filter (fun w => occursIn w s)).length

/-- Python `any(word in s for word in ws)`. -/
def anyHit (ws : List String) (s : List Char) : Bool :=
  ws.any (fun w => occursIn w s)

/-! ## CGM agent (`agents/cgm_agent.py`)

`CGMAgent.cgm_ranges`: per-condition measurable and target bands. -/

/-- One entry of `self.cgm_ranges`. -/
structure CgmRange where
  rmin : ℚ
  rmax : ℚ
  target_min : ℚ
  target_max : ℚ
  deriving DecidableEq, Repr

/-- `cgm_ranges["Type 1 Diabetes"]`. -/
def cgmRangeType1 : CgmRange := ⟨80, 250, 80, 180⟩

/-- `cgm_ranges["Type 2 Diabetes"]`. -/
def cgmRangeType2 : CgmRange := ⟨90, 220, 90, 180⟩

/-- `cgm_ranges["Pre-diabetes"]`. -/
def cgmRangePre : CgmRange := ⟨85, 180, 85, 140⟩

/-- `cgm_ranges["None"]`. -/
def cgmRangeNone : CgmRange := ⟨70, 140, 70, 140⟩

/-- `cgm_ranges["default"]`. -/
def cgmRangeDefault : CgmRange := ⟨70, 180, 80, 140⟩

/-- `CGMAgent.get_user_cgm_range`.  The argument is the result of
`db.validate_user_id(user_id)`: `none` for an unknown user, otherwise
the user's `medical_conditions` list.  The source resolves the range by
the priority chain Type 1 Diabetes, Type 2 Diabetes, Pre-diabetes,
`"None" in conditions or not conditions`, default. -/
def get_user_cgm_range (userConditions : Option (List String)) : CgmRange :=
  match userConditions with
  | none => cgmRangeDefault
  | some conditions =>
    if "Type 1 Diabetes" ∈ conditions then cgmRangeType1
    else if "Type 2 Diabetes" ∈ conditions then cgmRangeType2
    else if "Pre-diabetes" ∈ conditions then cgmRangePre
    else if "None" ∈ conditions ∨ conditions = [] then cgmRangeNone
    else cgmRangeDefault

/-- Alert level assigned by `process_glucose_reading`. -/
inductive AlertType where
  | normal
  | critical_low
  | low
  | high
  | critical_high
  deriving DecidableEq, Repr

/-- The alert-level decision of `process_glucose_reading` (the
`if glucose_reading < user_ranges["target_min"] ... elif ... else`
ladder, lines 108-150 of `cgm_agent.py`). -/
def classifyReading (r : ℚ) (rng : CgmRange) : AlertType :=
  if r < rng.target_min then
    if r < 70 then .critical_low else .low
  else if r > rng.target_max then
    if r > 250 then .critical_high else .high
  else .normal

/-- A database write performed through `utils/database.py`. -/
inductive DbWrite where
  | cgmReading (user : String) (reading : ℚ)
  | cgmAlert (user : String) (reading : ℚ) (alert : AlertType)
  | interaction (user source target kind : String)
  | mood (user label : String) (score : Nat)
  | foodIntake (user desc : String)
  | mealPlan (user date : String)
  deriving DecidableEq, Repr

/-- Result of `CGMAgent.process_glucose_reading`, keeping the fields the
source distinguishes: the constructor records which `return` dict was
produced.  `errNotLoggedIn` is the `status: error` dict with message
"Please log in first before recording glucose readings.";
`errInvalidReading` the one with message "Invalid glucose reading: ...";
`ok` is the `status: success` dict carrying `alert_type` and the
resolved target range. -/
inductive GlucoseOutcome where
  | errNotLoggedIn
  | errInvalidReading
  | ok (alert_type : AlertType) (ranges : CgmRange)
  deriving DecidableEq, Repr

/-- The `status` field of the dict `process_glucose_reading` returns. -/
def GlucoseOutcome.status : GlucoseOutcome → String
  | .errNotLoggedIn => "error"
  | .errInvalidReading => "error"
  | .ok _ _ => "success"

/-- `CGMAgent.process_glucose_reading`.  `user` is
`self.authenticated_user_id` (`none` embeds Python `None`; the guard is
`if not self.authenticated_user_id`), `userConditions` the database's
answer used by `get_user_cgm_range`, `r` the reading.  Returns the
outcome together with the list of database writes performed, in order:
`store_cgm_reading`, `log_agent_interaction`, and `store_cgm_alert`
when the alert type is not normal.  (`get_cgm_trends`, called for
recommendations, only reads.) -/
def process_glucose_reading (user : Option String)
    (userConditions : Option (List String)) (r : ℚ) :
    GlucoseOutcome × List DbWrite :=
  match user with
  | none => (.errNotLoggedIn, [])
  | some uid =>
    if r < 20 ∨ r > 600 then (.errInvalidReading, [])
    else
      let rng := get_user_cgm_range userConditions
      let alert := classifyReading r rng
      (.ok alert rng,
        [.cgmReading uid r,
         .interaction uid "CGMAgent" "Database" "glucose_logging"] ++
        (if alert ≠ .normal then [.cgmAlert uid r alert] else []))

/-! ## Severity bands as the specification states them -/

/-- The severity bands exactly as the specification sentence words them:
below 70 is critical_low, strictly below `target_min` but at least 70 is
low, within `[target_min, target_max]` inclusive is normal, above
`target_max` but at most 250 is high, above 250 is critical_high.
Stated from the spec to be compared with `classifyReading`. -/
def specSeverity (r tmin tmax : ℚ) : AlertType :=
  if r < 70 then .critical_low
  else if r < tmin then .low
  else if r ≤ tmax then .normal
  else if r ≤ 250 then .high
  else .critical_high

/-- Every range the resolver can return has `70 ≤ target_min`,
`target_min ≤ target_max` and `target_max ≤ 250`. -/
theorem cgm_range_bounds (ud : Option (List String)) :
    70 ≤ (get_user_cgm_range ud).target_min ∧
    (get_user_cgm_range ud).target_min ≤ (get_user_cgm_range ud).target_max ∧
    (get_user_cgm_range ud).target_max ≤ 250 := by
  unfold get_user_cgm_range
  rcases ud with _ | conditions
  · refine ⟨by norm_num [cgmRangeDefault], by norm_num [cgmRangeDefault],
      by norm_num [cgmRangeDefault]⟩
  · dsimp only
    split_ifs <;>
      simp_all [cgmRangeType1, cgmRangeType2, cgmRangePre, cgmRangeNone,
        cgmRangeDefault] <;> norm_num

/-- C1: for every reading accepted by `process_glucose_reading` (within
the measurable 20-600 band) and every user (known or not, any list of
medical conditions), the alert level the code assigns coincides with the
banding the specification states over the resolved
`target_min`/`target_max`; and the target range is resolved from the
medical conditions by the priority order Type 1 Diabetes, then Type 2
Diabetes, then Pre-diabetes, then the "None" entry (when `"None"` is
listed or the list is empty), then the default entry. -/
theorem glucose_severity_spec (ud : Option (List String))
    (conds : List String) (r : ℚ) (h20 : 20 ≤ r) (h600 : r ≤ 600) :
    classifyReading r (get_user_cgm_range ud) =
      specSeverity r (get_user_cgm_range ud).target_min
        (get_user_cgm_range ud).target_max ∧
    ("Type 1 Diabetes" ∈ conds →
      get_user_cgm_range (some conds) = cgmRangeType1) ∧
    ("Type 1 Diabetes" ∉ conds → "Type 2 Diabetes" ∈ conds →
      get_user_cgm_range (some conds) = cgmRangeType2) ∧
    ("Type 1 Diabetes" ∉ conds → "Type 2 Diabetes" ∉ conds →
      "Pre-diabetes" ∈ conds →
      get_user_cgm_range (some conds) = cgmRangePre) ∧
    ("Type 1 Diabetes" ∉ conds → "Type 2 Diabetes" ∉ conds →
      "Pre-diabetes" ∉ conds → ("None" ∈ conds ∨ conds = []) →
      get_user_cgm_range (some conds) = cgmRangeNone) ∧
    ("Type 1 Diabetes" ∉ conds → "Type 2 Diabetes" ∉ conds →
      "Pre-diabetes" ∉ conds → ¬("None" ∈ conds ∨ conds = []) →
      get_user_cgm_range (some conds) = cgmRangeDefault) := by
  obtain ⟨hb1, hb2, hb3⟩ := cgm_range_bounds ud
  refine ⟨?_, ?_, ?_, ?_, ?_, ?_⟩
  · unfold classifyReading specSeverity
    split_ifs <;> first | rfl | linarith
  · intro h1; simp [get_user_cgm_range, h1]
  · intro h1 h2; simp [get_user_cgm_range, h1, h2]
  · intro h1 h2 h3; simp [get_user_cgm_range, h1, h2, h3]
  · intro h1 h2 h3 h4; simp [get_user_cgm_range, h1, h2, h3, h4]
  · intro h1 h2 h3 h4; simp [get_user_cgm_range, h1, h2, h3, h4]

/-- Witness for `glucose_severity_spec` at a concrete user and reading. -/
theorem glucose_severity_spec_witness :
    (20 : ℚ) ≤ 65 ∧ (65 : ℚ) ≤ 600 ∧
    (classifyReading 65 (get_user_cgm_range (some ["Type 2 Diabetes"])) =
      specSeverity 65
        (get_user_cgm_range (some ["Type 2 Diabetes"])).target_min
        (get_user_cgm_range (some ["Type 2 Diabetes"])).target_max ∧
     ("Type 1 Diabetes" ∈ ["Type 2 Diabetes"] →
       get_user_cgm_range (some ["Type 2 Diabetes"]) = cgmRangeType1) ∧
     ("Type 1 Diabetes" ∉ ["Type 2 Diabetes"] →
       "Type 2 Diabetes" ∈ ["Type 2 Diabetes"] →
       get_user_cgm_range (some ["Type 2 Diabetes"]) = cgmRangeType2) ∧
     ("Type 1 Diabetes" ∉ ["Type 2 Diabetes"] →
       "Type 2 Diabetes" ∉ ["Type 2 Diabetes"] →
       "Pre-diabetes" ∈ ["Type 2 Diabetes"] →
       get_user_cgm_range (some ["Type 2 Diabetes"]) = cgmRangePre) ∧
     ("Type 1 Diabetes" ∉ ["Type 2 Diabetes"] →
       "Type 2 Diabetes" ∉ ["Type 2 Diabetes"] →
       "Pre-diabetes" ∉ ["Type 2 Diabetes"] →
       ("None" ∈ ["Type 2 Diabetes"] ∨ ["Type 2 Diabetes"] = ([] : List String)) →
       get_user_cgm_range (some ["Type 2 Diabetes"]) = cgmRangeNone) ∧
     ("Type 1 Diabetes" ∉ ["Type 2 Diabetes"] →
       "Type 2 Diabetes" ∉ ["Type 2 Diabetes"] →
       "Pre-diabetes" ∉ ["Type 2 Diabetes"] →
       ¬("None" ∈ ["Type 2 Diabetes"] ∨ ["Type 2 Diabetes"] = ([] : List String)) →
       get_user_cgm_range (some ["Type 2 Diabetes"]) = cgmRangeDefault)) :=
  ⟨by norm_num, by norm_num,
    glucose_severity_spec (some ["Type 2 Diabetes"]) ["Type 2 Diabetes"] 65
      (by norm_num) (by norm_num)⟩

/-- C10: a reading strictly below 20 or strictly above 600 makes
`process_glucose_reading` return the invalid-reading error for every
authenticated user, with no database write of any kind. -/
theorem invalid_reading_no_writes (uid : String)
    (userConditions : Option (List String)) (r : ℚ)
    (h : r < 20 ∨ r > 600) :
    process_glucose_reading (some uid) userConditions r =
      (.errInvalidReading, []) ∧
    (process_glucose_reading (some uid) userConditions r).1.status =
      "error" := by
  have he : process_glucose_reading (some uid) userConditions r =
      (.errInvalidReading, []) := by
    simp [process_glucose_reading, h]
  exact ⟨he, by rw [he]; rfl⟩

/-- Witness for `invalid_reading_no_writes` at reading 650. -/
theorem invalid_reading_no_writes_witness :
    ((650 : ℚ) < 20 ∨ (650 : ℚ) > 600) ∧
    (process_glucose_reading (some "1001") none 650 =
      (.errInvalidReading, []) ∧
     (process_glucose_reading (some "1001") none 650).1.status =
      "error") :=
  ⟨Or.inr (by norm_num),
   invalid_reading_no_writes "1001" none 650 (Or.inr (by norm_num))⟩

/-! ## Regex scanners for `_detect_primary_intent` (`main.py`)

Each scanner implements one of the source's `re.search` patterns on the
lowered input.  `existsSuffix p` is `re.search` reduced to a boolean:
the pattern matches iff it matches starting at some position. -/

/-- Does `p` hold at some suffix of the list (every start position of a
regex search)? -/
def existsSuffix (p : List Char → Bool) : List Char → Bool
  | [] => p []
  | c :: t => p (c :: t) || existsSuffix p t

/-- Consume a (maximal) run of digits, `\d*` before a non-digit. -/
def skipDigits (cs : List Char) : List Char :=
  cs.dropWhile isAsciiDigit

/-- Consume a (maximal) run of whitespace, `\s*` before a non-space. -/
def skipSpaces (cs : List Char) : List Char :=
  cs.dropWhile isPySpace

/-- `\d+\s*(?:mg|glucose|sugar|reading)` anchored at the current
position.  Maximizing the digit and space runs is exact: a shorter
`\d+` leaves a digit which neither `\s*` nor a unit letter can match,
and a shorter `\s*` leaves a space which no unit letter can match. -/
def numUnitHere (cs : List Char) : Bool :=
  match cs with
  | [] => false
  | c :: _ =>
    isAsciiDigit c &&
      (let rest := skipSpaces (skipDigits cs)
       startsWithL "mg".toList rest || startsWithL "glucose".toList rest ||
       startsWithL "sugar".toList rest || startsWithL "reading".toList rest)

/-- `\d+\s*mg` anchored at the current position (the specification's
"in particular" pattern). -/
def mgValueHere (cs : List Char) : Bool :=
  match cs with
  | [] => false
  | c :: _ =>
    isAsciiDigit c && startsWithL "mg".toList (skipSpaces (skipDigits cs))

/-- Is there a digit before any newline?  This is `.*\d` from the
current position: `.` does not match a newline in Python. -/
def digitBeforeNewline : List Char → Bool
  | [] => false
  | c :: t => isAsciiDigit c || (c ≠ '\n' && digitBeforeNewline t)

/-- `kw.*\d+` anchored at the current position. -/
def kwThenNumberHere (kw : List Char) (cs : List Char) : Bool :=
  startsWithL kw cs && digitBeforeNewline (cs.drop kw.length)

/-- The `cgm_indicators["values"]` loop of `_detect_primary_intent`:
does any of `\d+\s*(?:mg|glucose|sugar|reading)`, `glucose.*\d+`,
`sugar.*\d+`, `reading.*\d+` match the lowered input? -/
def cgmValueMatch (s : List Char) : Bool :=
  existsSuffix numUnitHere s ||
  existsSuffix (kwThenNumberHere "glucose".toList) s ||
  existsSuffix (kwThenNumberHere "sugar".toList) s ||
  existsSuffix (kwThenNumberHere "reading".toList) s

/-- `re.search` of `\d+\s*mg`. -/
def mgValueMatch (s : List Char) : Bool :=
  existsSuffix mgValueHere s

/-- `i'?m` anchored at the current position, returning the rest.  The
optional quote is exact: with backtracking either form matches. -/
def imAfter : List Char → Option (List Char)
  | 'i' :: '\x27' :: 'm' :: rest => some rest
  | 'i' :: 'm' :: rest => some rest
  | _ => none

/-- `\s+(w1|w2|...)` anchored at the current position: at least one
space, then one of the alternatives.  Maximizing the space run is exact
because every alternative starts with a letter. -/
def spacesThenAnyWord (ws : List String) (cs : List Char) : Bool :=
  match cs with
  | [] => false
  | c :: t => isPySpace c && ws.any (fun w => startsWithL w.toList (skipSpaces t))

/-- `i'?m\s+(stupid|dumb|worthless|useless|terrible|awful|pathetic)`
anchored at the current position. -/
def selfDeprecHere (cs : List Char) : Bool :=
  match imAfter cs with
  | some rest =>
    spacesThenAnyWord
      ["stupid", "dumb", "worthless", "useless", "terrible", "awful",
       "pathetic"] rest
  | none => false

/-- `i\s+feel\s+like` anchored at the current position. -/
def iFeelLikeHere (cs : List Char) : Bool :=
  match cs with
  | 'i' :: c :: t =>
    isPySpace c &&
      (let r := skipSpaces t
       startsWithL "feel".toList r &&
         (match r.drop 4 with
          | c2 :: t2 => isPySpace c2 && startsWithL "like".toList (skipSpaces t2)
          | [] => false))
  | _ => false

/-- `i'?m\s+(so|really|very|extremely)\s+\w+` anchored at the current
position. -/
def qualSelfHere (cs : List Char) : Bool :=
  match imAfter cs with
  | some rest =>
    match rest with
    | [] => false
    | c :: t =>
      isPySpace c &&
        (let r := skipSpaces t
         ["so", "really", "very", "extremely"].any (fun w =>
           startsWithL w.toList r &&
             (match r.drop w.toList.length with
              | c2 :: t2 =>
                isPySpace c2 &&
                  (match skipSpaces t2 with
                   | c3 :: _ => isWordChar c3
                   | [] => false)
              | [] => false)))
  | none => false

/-! ## Keyword tables of `_detect_primary_intent` -/

/-- `mood_indicators["direct"]`. -/
def moodDirectWords : List String :=
  ["feel", "mood", "feeling", "emotions", "emotional"]

/-- `mood_indicators["positive"]`. -/
def moodPositiveWords : List String :=
  ["happy", "great", "awesome", "fantastic", "wonderful", "excited",
   "thrilled", "amazing", "good", "better", "cheerful", "joyful",
   "elated", "ecstatic"]

/-- `mood_indicators["negative"]`. -/
def moodNegativeWords : List String :=
  ["sad", "terrible", "awful", "horrible", "bad", "worse", "depressed",
   "down", "low", "upset", "angry", "frustrated", "stressed", "anxious",
   "worried", "scared", "tired", "exhausted", "drained"]

/-- `mood_indicators["self_ref"]`. -/
def moodSelfRefPhrases : List String :=
  ["i am", "i\x27m", "i feel", "i\x27m feeling", "feeling", "today i",
   "right now i"]

/-- `cgm_indicators["direct"]`. -/
def cgmDirectWords : List String :=
  ["glucose", "blood sugar", "cgm", "reading", "mg/dl", "sugar level",
   "diabetes", "diabetic"]

/-- `cgm_indicators["actions"]`. -/
def cgmActionWords : List String :=
  ["check", "test", "measure", "monitor"]

/-- `food_indicators["past_tense"]`. -/
def foodPastWords : List String :=
  ["ate", "had", "eaten", "consumed", "finished", "devoured"]

/-- `food_indicators["present_tense"]`. -/
def foodPresentWords : List String :=
  ["eating", "having", "consuming"]

/-- `food_indicators["meals"]`. -/
def foodMealWords : List String :=
  ["breakfast", "lunch", "dinner", "snack", "meal", "brunch", "supper"]

/-- `food_indicators["food_items"]`. -/
def foodItemWords : List String :=
  ["food", "pizza", "salad", "chicken", "rice", "bread", "fruit",
   "vegetables"]

/-- `food_indicators["context"]`. -/
def foodContextWords : List String :=
  ["just", "recently", "earlier", "this morning", "for lunch",
   "for dinner"]

/-- `planning_indicators["direct"]`. -/
def planningDirectPhrases : List String :=
  ["meal plan", "plan meal", "plan a meal", "meal planning", "menu",
   "meal ideas", "suggest meals", "what to eat", "plan my meals"]

/-- `planning_indicators["planning_verbs"]`. -/
def planningVerbWords : List String :=
  ["plan", "planning", "suggest", "recommend", "generate", "create"]

/-- `planning_indicators["questions"]`. -/
def planningQuestionPhrases : List String :=
  ["what should i eat", "what can i eat", "meal suggestions",
   "food recommendations"]

/-- `planning_indicators["time_based"]`. -/
def planningTimePhrases : List String :=
  ["tomorrow", "today", "this week", "next week", "meal prep"]

/-- `insights_indicators["direct"]`. -/
def insightsDirectWords : List String :=
  ["trends", "insights", "show me", "view", "display", "analysis",
   "patterns", "summary", "report", "data", "statistics", "dashboard"]

/-- `insights_indicators["requests"]`. -/
def insightsRequestPhrases : List String :=
  ["how am i doing", "my progress", "track my", "history", "overview",
   "my health", "health dashboard"]

/-! ## Scoring functions -/

/-- `calculate_mood_score` on the lowered, stripped input. -/
def calculate_mood_score (s : List Char) : Nat :=
  2 * countHits moodDirectWords s + 2 * countHits moodPositiveWords s +
  2 * countHits moodNegativeWords s + 3 * countHits moodSelfRefPhrases s +
  (if existsSuffix selfDeprecHere s then 5 else 0) +
  (if existsSuffix iFeelLikeHere s then 4 else 0) +
  (if existsSuffix qualSelfHere s then 3 else 0)

/-- `calculate_cgm_score`. -/
def calculate_cgm_score (s : List Char) : Nat :=
  2 * countHits cgmDirectWords s + countHits cgmActionWords s

/-- `calculate_food_score`, including the logging/planning context
gating of the meal-word bonus. -/
def calculate_food_score (s : List Char) : Nat :=
  let base := 3 * countHits foodPastWords s +
    2 * countHits foodPresentWords s + countHits foodItemWords s +
    countHits foodContextWords s
  let hasLoggingContext := anyHit (foodPastWords ++ foodContextWords) s
  let hasPlanningContext := anyHit planningVerbWords s
  base +
    (if !hasPlanningContext && hasLoggingContext then
      2 * countHits foodMealWords s
     else if !hasPlanningContext then countHits foodMealWords s
     else 0)

/-- `calculate_planning_score`. -/
def calculate_planning_score (s : List Char) : Nat :=
  4 * countHits planningDirectPhrases s +
  2 * countHits planningQuestionPhrases s +
  countHits planningTimePhrases s +
  (let verbs := anyHit planningVerbWords s
   let meals := anyHit ["meal", "menu", "food", "diet"] s
   if verbs && meals then 5 else if verbs then 2 else 0)

/-- `calculate_insights_score`. -/
def calculate_insights_score (s : List Char) : Nat :=
  2 * countHits insightsDirectWords s +
  2 * countHits insightsRequestPhrases s +
  (if anyHit ["show", "view", "display", "get"] s then 5 else 0)

/-- The intent labels `_detect_primary_intent` can return. -/
inductive Intent where
  | mood_tracking
  | cgm_monitoring
  | food_logging
  | meal_planning
  | insights_request
  | general_question
  deriving DecidableEq, Repr

/-- `input_lower = user_input.lower().strip()`. -/
def prepInput (userInput : String) : List Char :=
  stripL (lowerL userInput.toList)

/-- The final selection of `_detect_primary_intent`:
`max(scores, key=scores.get)` returns the first key, in the dict
insertion order mood_tracking, cgm_monitoring, food_logging,
meal_planning, insights_request, whose score attains the maximum; the
result is kept only when the maximum is positive, else
`general_question`. -/
def argmaxPick (m c f p i mx : Nat) : Intent :=
  if mx > 0 then
    if m = mx then .mood_tracking
    else if c = mx then .cgm_monitoring
    else if f = mx then .food_logging
    else if p = mx then .meal_planning
    else .insights_request
  else .general_question

/-- The maximum of the five scores fed into the pick above
(`max_score = max(scores.values())`). -/
def argmaxIntentCore (m c f p i : Nat) : Intent :=
  argmaxPick m c f p i (max m (max c (max f (max p i))))

/-- `HealthAgentSystem._detect_primary_intent`: the glucose value
patterns short-circuit to `cgm_monitoring`; otherwise the five scores
are computed and `max(scores, key=scores.get)` picks the first key (in
dict insertion order mood, cgm, food, meal-planning, insights) that
attains the maximum, or `general_question` when the maximum is 0. -/
def detect_primary_intent (userInput : String) : Intent :=
  let s := prepInput userInput
  if cgmValueMatch s then .cgm_monitoring
  else
    argmaxIntentCore (calculate_mood_score s) (calculate_cgm_score s)
      (calculate_food_score s) (calculate_planning_score s)
      (calculate_insights_score s)

/-- A `\d+\s*mg` match is in particular a
`\d+\s*(?:mg|glucose|sugar|reading)` match. -/
theorem mgValueHere_numUnitHere (cs : List Char) :
    mgValueHere cs = true → numUnitHere cs = true := by
  cases cs with
  | nil => simp [mgValueHere, numUnitHere]
  | cons c t =>
    simp only [mgValueHere, numUnitHere, Bool.and_eq_true, Bool.or_eq_true]
    tauto

/-- Suffix search is monotone in the position predicate. -/
theorem existsSuffix_mono {p q : List Char → Bool}
    (hpq : ∀ cs, p cs = true → q cs = true) :
    ∀ cs, existsSuffix p cs = true → existsSuffix q cs = true := by
  intro cs
  induction cs with
  | nil => simpa [existsSuffix] using hpq []
  | cons c t ih =>
    simp only [existsSuffix, Bool.or_eq_true]
    rintro (h | h)
    · exact Or.inl (hpq _ h)
    · exact Or.inr (ih h)

/-- C2: whenever any of the numeric glucose patterns matches the
lowered, stripped input, `_detect_primary_intent` returns
`cgm_monitoring` no matter what the five category scores are; and in
particular every input matching `\d+\s*mg` classifies as
`cgm_monitoring`. -/
theorem cgm_value_short_circuit (s : String) :
    (cgmValueMatch (prepInput s) = true →
      detect_primary_intent s = .cgm_monitoring) ∧
    (mgValueMatch (prepInput s) = true →
      detect_primary_intent s = .cgm_monitoring) := by
  constructor
  · intro h
    simp [detect_primary_intent, h]
  · intro h
    have hv : cgmValueMatch (prepInput s) = true := by
      unfold cgmValueMatch
      have := existsSuffix_mono mgValueHere_numUnitHere (prepInput s) h
      simp [this]
    simp [detect_primary_intent, hv]

/-- Witness for `cgm_value_short_circuit`: an input loaded with mood
and food keywords still classifies as `cgm_monitoring` because of the
`120 mg` token. -/
theorem cgm_value_short_circuit_witness :
    mgValueMatch (prepInput "I feel happy and I ate pizza, 120 mg") = true ∧
    cgmValueMatch (prepInput "I feel happy and I ate pizza, 120 mg") = true ∧
    detect_primary_intent "I feel happy and I ate pizza, 120 mg" =
      .cgm_monitoring :=
  ⟨by decide, by decide,
    (cgm_value_short_circuit "I feel happy and I ate pizza, 120 mg").2
      (by decide)⟩

/-! ## Glucose reading extractor (`HealthAgentSystem._extract_glucose_reading`)

The source tries, on `text.lower()`, the patterns
`(\d+(?:\.\d+)?)\s*(?:mg/dl|mg|glucose|reading)`, `glucose.*?(\d+(?:\.\d+)?)`,
`reading.*?(\d+(?:\.\d+)?)`, `sugar.*?(\d+(?:\.\d+)?)`, `(\d+(?:\.\d+)?)`
in order and returns the float of the first captured group. -/

/-- Numeric value of a digit run, most significant digit first. -/
def digitsVal (ds : List Char) : Nat :=
  ds.foldl (fun a c => 10 * a + (c.toNat - 48)) 0

/-- Parse `\d+(?:\.\d+)?` anchored at the current position (the caller
guarantees a leading digit): a maximal digit run, then a fractional part
when a dot followed by at least one digit is present.  Greediness is
exact: skipping an available fraction leaves a dot which no continuation
of the source's patterns can match, and a shorter digit run leaves a
digit with the same property.  Returns the value (as `float` does for a
decimal literal) and the remaining characters. -/
def numberHere (cs : List Char) : ℚ × List Char :=
  let ds := cs.takeWhile isAsciiDigit
  let rest := cs.dropWhile isAsciiDigit
  match rest with
  | '.' :: r2 =>
    let fs := r2.takeWhile isAsciiDigit
    if fs.isEmpty then ((digitsVal ds : ℚ), rest)
    else
      ((digitsVal ds : ℚ) + (digitsVal fs : ℚ) / (10 : ℚ) ^ fs.length,
       r2.dropWhile isAsciiDigit)
  | _ => ((digitsVal ds : ℚ), rest)

/-- `(\d+(?:\.\d+)?)\s*(?:mg/dl|mg|glucose|reading)` anchored at the
current position, returning the captured number on a match. -/
def unitNumberHere (cs : List Char) : Option ℚ :=
  match cs with
  | [] => none
  | c :: _ =>
    if isAsciiDigit c then
      let (v, rest) := numberHere cs
      let r := skipSpaces rest
      if startsWithL "mg/dl".toList r || startsWithL "mg".toList r ||
         startsWithL "glucose".toList r || startsWithL "reading".toList r
      then some v else none
    else none

/-- `re.search`: try the anchored matcher at every position, leftmost
success first. -/
def searchO (p : List Char → Option ℚ) : List Char → Option ℚ
  | [] => p []
  | c :: t =>
    match p (c :: t) with
    | some v => some v
    | none => searchO p t

/-- First number reachable without crossing a newline: `.*?(\d+(?:\.\d+)?)`
from the current position (`.` does not match a newline, the non-greedy
gap stops at the first digit, the group is then taken greedily). -/
def firstNumberNoNewline : List Char → Option ℚ
  | [] => none
  | c :: t =>
    if isAsciiDigit c then some (numberHere (c :: t)).1
    else if c = '\n' then none
    else firstNumberNoNewline t

/-- `re.search` of `kw.*?(\d+(?:\.\d+)?)`: at the first occurrence of
`kw` that is followed (before any newline) by a digit, capture that
number. -/
def kwNumberSearch (kw : List Char) : List Char → Option ℚ
  | [] => none
  | c :: t =>
    if startsWithL kw (c :: t) then
      match firstNumberNoNewline ((c :: t).drop kw.length) with
      | some v => some v
      | none => kwNumberSearch kw t
    else kwNumberSearch kw t

/-- `re.search` of the bare `(\d+(?:\.\d+)?)`: the first number in the
text. -/
def firstNumberAnywhere : List Char → Option ℚ
  | [] => none
  | c :: t =>
    if isAsciiDigit c then some (numberHere (c :: t)).1
    else firstNumberAnywhere t

/-- The ordered pattern cascade of `_extract_glucose_reading` on the
lowered text: first successful pattern wins. -/
def glucoseSearchChain (s : List Char) : Option ℚ :=
  match searchO unitNumberHere s with
  | some v => some v
  | none =>
    match kwNumberSearch "glucose".toList s with
    | some v => some v
    | none =>
      match kwNumberSearch "reading".toList s with
      | some v => some v
      | none =>
        match kwNumberSearch "sugar".toList s with
        | some v => some v
        | none => firstNumberAnywhere s

/-- `HealthAgentSystem._extract_glucose_reading`. -/
def extract_glucose_reading (text : String) : Option ℚ :=
  glucoseSearchChain (lowerL text.toList)

/-! ## Mood tracker (`agents/mood_tracker_agent.py`) -/

/-- `MoodTrackerAgent.extract_simple_mood_label`: the tiered
contains-matching ladder over the lowered, stripped input, with the
generic positive/negative vocabulary count as last resort. -/
def simpleMoodLabelCore (ml : List Char) : String :=
  if anyHit ["terrible", "awful", "horrible", "worst"] ml then "terrible"
  else if anyHit ["very sad", "depressed", "miserable", "devastated"] ml then
    "depressed"
  else if anyHit ["sad", "down", "low", "blue", "upset"] ml then "sad"
  else if anyHit ["tired", "sluggish", "drained", "exhausted", "weary"] ml then
    "tired"
  else if anyHit ["bad", "not good", "poor", "rough"] ml then "bad"
  else if anyHit ["ecstatic", "overjoyed", "blissful", "euphoric",
      "elated"] ml then "ecstatic"
  else if anyHit ["excited", "amazing", "thrilled", "energetic",
      "pumped"] ml then "excited"
  else if anyHit ["great", "wonderful", "fantastic", "awesome",
      "excellent"] ml then "great"
  else if anyHit ["happy", "positive", "cheerful", "content",
      "joyful"] ml then "happy"
  else if anyHit ["good", "decent", "alright", "better", "well"] ml then
    "good"
  else if anyHit ["okay", "fine", "meh", "so-so"] ml then "okay"
  else if countHits ["love", "like", "enjoy", "nice", "pleasant",
      "bright"] ml >
      countHits ["hate", "dislike", "stress", "worry", "angry",
        "frustrated"] ml then "good"
  else if countHits ["hate", "dislike", "stress", "worry", "angry",
      "frustrated"] ml >
      countHits ["love", "like", "enjoy", "nice", "pleasant",
        "bright"] ml then "down"
  else "neutral"

/-- `MoodTrackerAgent.extract_simple_mood_label`: the ladder applied to
the lowered, stripped input. -/
def extract_simple_mood_label (moodInput : String) : String :=
  simpleMoodLabelCore (stripL (lowerL moodInput.toList))

/-- `MoodTrackerAgent.mood_scores`, the fixed label-to-score table. -/
def mood_scores : List (String × Nat) :=
  [("terrible", 1), ("awful", 1), ("horrible", 1),
   ("depressed", 2), ("miserable", 2),
   ("sad", 3), ("down", 3), ("low", 3),
   ("tired", 4), ("bad", 4),
   ("okay", 5), ("neutral", 5), ("fine", 5),
   ("good", 6), ("decent", 6), ("alright", 6),
   ("happy", 7), ("positive", 7), ("cheerful", 7),
   ("great", 8), ("wonderful", 8), ("fantastic", 8),
   ("excited", 9), ("amazing", 9), ("thrilled", 9),
   ("ecstatic", 10), ("overjoyed", 10), ("blissful", 10)]

/-- The fuzzy-matching elif ladder of `convert_mood_to_score`, entered
when the label is not a key of `mood_scores`; the final else keeps the
neutral default `score = 5`. -/
def moodScoreFallback (ml : List Char) : Nat :=
  if anyHit ["terrible", "awful", "horrible", "worst"] ml then 1
  else if anyHit ["very sad", "depressed", "miserable",
      "devastated"] ml then 2
  else if anyHit ["sad", "down", "low", "blue", "upset"] ml then 3
  else if anyHit ["tired", "sluggish", "drained", "exhausted",
      "weary"] ml then 4
  else if anyHit ["good", "decent", "alright", "better"] ml then 6
  else if anyHit ["happy", "positive", "cheerful", "content"] ml then 7
  else if anyHit ["great", "wonderful", "fantastic", "awesome"] ml then 8
  else if anyHit ["excited", "amazing", "thrilled", "energetic"] ml then 9
  else if anyHit ["ecstatic", "overjoyed", "blissful",
      "euphoric"] ml then 10
  else 5

/-- The `mood_score` computed by `MoodTrackerAgent.convert_mood_to_score`:
direct table lookup on the lowered, stripped label, else the fuzzy
keyword ladder, else the neutral default 5. -/
def convert_mood_to_score (moodLabel : String) : Nat :=
  match mood_scores.find?
      (fun p => p.1.toList == stripL (lowerL moodLabel.toList)) with
  | some p => p.2
  | none => moodScoreFallback (stripL (lowerL moodLabel.toList))

/-- `HealthAgentSystem._extract_mood_from_input`: strip the first
matching prefix from the original text (prefix matching is done on the
lowered text, the slice is taken from the original). -/
def extract_mood_from_input (text : String) : String :=
  let tl := lowerL text.toList
  match ["i feel", "i\x27m feeling", "feeling", "i am", "mood:",
      "my mood is"].find? (fun p => startsWithL p.toList tl) with
  | some p => String.mk (stripL (text.toList.drop p.toList.length))
  | none => String.mk (stripL text.toList)

/-- `HealthAgentSystem._extract_meal_description`: strip the first
matching prefix (matching on the lowered text, slicing the original),
or return the stripped original text. -/
def extract_meal_description (text : String) : String :=
  match ["i ate", "i had", "just ate", "just had", "meal:", "food:",
      "consumed", "eaten", "my meal was", "for lunch i had",
      "for dinner i had", "for breakfast i had"].find?
      (fun p => startsWithL p.toList (lowerL text.toList)) with
  | some p => String.mk (stripL (text.toList.drop p.toList.length))
  | none => String.mk (stripL text.toList)

/-! ## Name extractor (`HealthAgentSystem._extract_name_from_input`)

The source tries, on `text.lower()`, the patterns `my name is (.+)`,
`i am (.+)`, `name:?\s*(.+)`, `called (.+)`, `i'm (.+)` in order,
returning the first captured group stripped, else the stripped input. -/

/-- The greedy `(.+)` capture from the current position: everything up
to (not including) the next newline. -/
def restOfLine (cs : List Char) : List Char :=
  cs.takeWhile (fun c => c ≠ '\n')

/-- `re.search` with a capturing matcher: leftmost success wins. -/
def searchFirst {α : Type} (p : List Char → Option α) :
    List Char → Option α
  | [] => p []
  | c :: t =>
    match p (c :: t) with
    | some v => some v
    | none => searchFirst p t

/-- `lit(.+)` anchored at the current position for a literal `lit`
(the source's literal patterns end in a space before the group): the
capture is the rest of the line, and must be nonempty. -/
def literalCaptureHere (lit : List Char) (cs : List Char) :
    Option (List Char) :=
  if startsWithL lit cs then
    let cap := restOfLine (cs.drop lit.length)
    if cap.isEmpty then none else some cap
  else none

/-- The last `\s` character of a consumed space run that is not a
newline -- the one `\s*` gives back so that `(.+)` can start on it. -/
def lastNonNewlineSpace (sp : List Char) : Option Char :=
  match (sp.filter (fun c => c ≠ '\n')).reverse with
  | c :: _ => some c
  | [] => none

/-- `name:?\s*(.+)` anchored at the current position, with the regex
engine's backtracking order made explicit: the optional colon is taken
greedily, `\s*` is taken greedily; if the line ends there, `\s*` gives
back spaces until `(.+)` can start on a non-newline space (capturing
exactly that one character, the rest of the run being newlines); if
that fails too, the colon is given back and `(.+)` starts on it (a
colon is never whitespace, so `\s*` is then empty and the capture
starts with the colon, hence is nonempty). -/
def nameColonHere (cs : List Char) : Option (List Char) :=
  if startsWithL "name".toList cs then
    match cs.drop 4 with
    | ':' :: r1 =>
      let cap := restOfLine (skipSpaces r1)
      if cap.isEmpty then
        match lastNonNewlineSpace (r1.takeWhile isPySpace) with
        | some c => some [c]
        | none => some (restOfLine (':' :: r1))
      else some cap
    | r0 =>
      let cap := restOfLine (skipSpaces r0)
      if cap.isEmpty then
        match lastNonNewlineSpace (r0.takeWhile isPySpace) with
        | some c => some [c]
        | none => none
      else some cap
  else none

/-- The ordered pattern cascade of `_extract_name_from_input` on the
lowered text `tl` (captures come from the lowered text), falling back
to the original text `orig`; every return site is a stripped string. -/
def nameSearchChain (tl orig : List Char) : String :=
  match searchFirst (literalCaptureHere "my name is ".toList) tl with
  | some cap => String.mk (stripL cap)
  | none =>
    match searchFirst (literalCaptureHere "i am ".toList) tl with
    | some cap => String.mk (stripL cap)
    | none =>
      match searchFirst nameColonHere tl with
      | some cap => String.mk (stripL cap)
      | none =>
        match searchFirst (literalCaptureHere "called ".toList) tl with
        | some cap => String.mk (stripL cap)
        | none =>
          match searchFirst (literalCaptureHere "i\x27m ".toList) tl with
          | some cap => String.mk (stripL cap)
          | none => String.mk (stripL orig)

/-- `HealthAgentSystem._extract_name_from_input`. -/
def extract_name_from_input (text : String) : String :=
  nameSearchChain (lowerL text.toList) text.toList

/-! ## Date extractor (`HealthAgentSystem._extract_date_from_input`)

Relative keywords resolve through `datetime.now()`; the embedding takes
the three `strftime("%Y-%m-%d")` results (today, tomorrow, yesterday)
as parameters.  The three date regexes run on the original text; the
captured group is converted by the source's branch on `/` and on the
length of the first `-` segment.  The bare `except: continue` guarding
the conversion can never fire: each matched group splits into exactly
the three fields its pattern prescribes. -/

/-- Exactly two digits (`\d{2}`), returning them and the rest. -/
def readTwoDigits (cs : List Char) : Option (Char × Char × List Char) :=
  match cs with
  | a :: b :: rest =>
    if isAsciiDigit a && isAsciiDigit b then some (a, b, rest) else none
  | _ => none

/-- Exactly four digits (`\d{4}`), returning them and the rest. -/
def readFourDigits (cs : List Char) :
    Option (Char × Char × Char × Char × List Char) :=
  match cs with
  | a :: b :: c :: d :: rest =>
    if isAsciiDigit a && isAsciiDigit b && isAsciiDigit c &&
        isAsciiDigit d then
      some (a, b, c, d, rest)
    else none
  | _ => none

/-- `\d{1,2}` followed by the separator (`/` or `-`, never a digit):
greedily two digits then the separator; giving one digit back only
helps when the second character is the separator itself. -/
def readOneOrTwoThenSep (sep : Char) (cs : List Char) :
    Option (List Char × List Char) :=
  match cs with
  | a :: b :: c :: rest =>
    if isAsciiDigit a then
      if isAsciiDigit b then
        if c = sep then some ([a, b], rest) else none
      else if b = sep then some ([a], c :: rest)
      else none
    else none
  | [a, b] =>
    if isAsciiDigit a then
      if isAsciiDigit b then none
      else if b = sep then some ([a], [])
      else none
    else none
  | _ => none

/-- Python `str.zfill(2)` on a 1-2 character digit string. -/
def zfill2 (ds : List Char) : List Char :=
  if ds.length = 1 then '0' :: ds else ds

/-- `(\d{4}-\d{2}-\d{2})` anchored at the current position; the
conversion branch returns this group unchanged (its first `-` segment
has four characters). -/
def isoDateHere (cs : List Char) : Option (List Char) :=
  match readFourDigits cs with
  | some (y1, y2, y3, y4, r1) =>
    match r1 with
    | '-' :: r2 =>
      match readTwoDigits r2 with
      | some (m1, m2, r3) =>
        match r3 with
        | '-' :: r4 =>
          match readTwoDigits r4 with
          | some (d1, d2, _) =>
            some [y1, y2, y3, y4, '-', m1, m2, '-', d1, d2]
          | none => none
        | _ => none
      | none => none
    | _ => none
  | none => none

/-- `(\d{1,2}sep\d{1,2}sep\d{4})` anchored at the current position,
already put through the source's conversion
`f"{year}-{month.zfill(2)}-{day.zfill(2)}"`. -/
def mdyDateHere (sep : Char) (cs : List Char) : Option (List Char) :=
  match readOneOrTwoThenSep sep cs with
  | some (m, r1) =>
    match readOneOrTwoThenSep sep r1 with
    | some (d, r2) =>
      match readFourDigits r2 with
      | some (y1, y2, y3, y4, _) =>
        some (y1 :: y2 :: y3 :: y4 :: '-' :: (zfill2 m ++ '-' :: zfill2 d))
      | none => none
    | none => none
  | none => none

/-- The ordered date-pattern cascade of `_extract_date_from_input` on
the original text: first matching pattern wins, its converted group is
returned. -/
def dateSearchChain (cs : List Char) : Option String :=
  match searchFirst isoDateHere cs with
  | some g => some (String.mk g)
  | none =>
    match searchFirst (mdyDateHere '/') cs with
    | some g => some (String.mk g)
    | none =>
      match searchFirst (mdyDateHere '-') cs with
      | some g => some (String.mk g)
      | none => none

/-- `HealthAgentSystem._extract_date_from_input`: relative keywords on
the lowered text first (in the order today, tomorrow, yesterday), then
the three date patterns on the original text, else `None`. -/
def extract_date_from_input (today tomorrow yesterday : String)
    (text : String) : Option String :=
  if occursIn "today" (lowerL text.toList) then some today
  else if occursIn "tomorrow" (lowerL text.toList) then some tomorrow
  else if occursIn "yesterday" (lowerL text.toList) then some yesterday
  else dateSearchChain text.toList

/-- The normalized `YYYY-MM-DD` shape every pattern-derived date has:
ten characters, digits everywhere except dashes at positions 4 and 7. -/
def isDateShape (cs : List Char) : Bool :=
  match cs with
  | [y1, y2, y3, y4, s1, m1, m2, s2, d1, d2] =>
    isAsciiDigit y1 && isAsciiDigit y2 && isAsciiDigit y3 &&
    isAsciiDigit y4 && s1 = '-' && isAsciiDigit m1 && isAsciiDigit m2 &&
    s2 = '-' && isAsciiDigit d1 && isAsciiDigit d2
  | _ => false

/-! ## Totality of the extractors and the score mapping -/

/-- The bare-number fallback finds a number exactly when the text
contains a digit. -/
theorem firstNumberAnywhere_isSome (cs : List Char) :
    (firstNumberAnywhere cs).isSome = cs.any isAsciiDigit := by
  induction cs with
  | nil => rfl
  | cons c t ih =>
    unfold firstNumberAnywhere
    by_cases h : isAsciiDigit c = true
    · simp [h]
    · simp only [Bool.not_eq_true] at h
      simp [h, ih]

/-- A digit-free text yields no number before a newline. -/
theorem firstNumberNoNewline_none (cs : List Char)
    (h : cs.any isAsciiDigit = false) : firstNumberNoNewline cs = none := by
  induction cs with
  | nil => rfl
  | cons c t ih =>
    simp only [List.any_cons, Bool.or_eq_false_iff] at h
    unfold firstNumberNoNewline
    rw [h.1]
    simp only [Bool.false_eq_true, if_false]
    split_ifs
    · rfl
    · exact ih h.2

/-- A digit-free text defeats the number-with-unit matcher everywhere. -/
theorem searchO_unitNumber_none (cs : List Char)
    (h : cs.any isAsciiDigit = false) : searchO unitNumberHere cs = none := by
  induction cs with
  | nil => rfl
  | cons c t ih =>
    simp only [List.any_cons, Bool.or_eq_false_iff] at h
    unfold searchO
    have hu : unitNumberHere (c :: t) = none := by
      simp [unitNumberHere, h.1]
    rw [hu]
    exact ih h.2

/-- A digit-free text defeats each keyword-then-number search. -/
theorem kwNumberSearch_none (kw : List Char) (cs : List Char)
    (h : cs.any isAsciiDigit = false) : kwNumberSearch kw cs = none := by
  induction cs with
  | nil => rfl
  | cons c t ih =>
    have hmem : ∀ x ∈ (c :: t), isAsciiDigit x = false := by
      intro x hx
      rcases List.any_eq_false.mp h x hx with h1
      simpa using h1
    have hd : ((c :: t).drop kw.length).any isAsciiDigit = false := by
      rw [List.any_eq_false]
      intro x hx
      simpa using hmem x (List.mem_of_mem_drop hx)
    have ht : t.any isAsciiDigit = false := by
      simp only [List.any_cons, Bool.or_eq_false_iff] at h
      exact h.2
    unfold kwNumberSearch
    rw [firstNumberNoNewline_none _ hd]
    split_ifs <;> exact ih ht

/-- The glucose extractor succeeds exactly when the lowered text
contains a digit: any digit at all is extracted as a reading (the known
overreach of the bare-number fallback), and a digit-free text yields
`None`. -/
theorem glucoseSearchChain_isSome (s : List Char) :
    (glucoseSearchChain s).isSome = s.any isAsciiDigit := by
  by_cases h : s.any isAsciiDigit = true
  · rw [h]
    unfold glucoseSearchChain
    split
    · rfl
    split
    · rfl
    split
    · rfl
    split
    · rfl
    rw [firstNumberAnywhere_isSome]
    exact h
  · simp only [Bool.not_eq_true] at h
    unfold glucoseSearchChain
    rw [searchO_unitNumber_none _ h, kwNumberSearch_none _ _ h,
      kwNumberSearch_none _ _ h, kwNumberSearch_none _ _ h, h]
    have := firstNumberAnywhere_isSome s
    rw [h] at this
    simpa using this

theorem extract_glucose_reading_isSome (text : String) :
    (extract_glucose_reading text).isSome =
      (lowerL text.toList).any isAsciiDigit :=
  glucoseSearchChain_isSome (lowerL text.toList)

/-- The mood-label ladder only ever returns one of its fixed labels. -/
theorem simpleMoodLabelCore_mem (ml : List Char) :
    simpleMoodLabelCore ml ∈
      ["terrible", "depressed", "sad", "tired", "bad", "ecstatic",
       "excited", "great", "happy", "good", "okay", "down", "neutral"] := by
  unfold simpleMoodLabelCore
  by_cases h1 : anyHit ["terrible", "awful", "horrible", "worst"] ml = true
  · rw [if_pos h1]; decide
  rw [if_neg h1]
  by_cases h2 : anyHit ["very sad", "depressed", "miserable",
    "devastated"] ml = true
  · rw [if_pos h2]; decide
  rw [if_neg h2]
  by_cases h3 : anyHit ["sad", "down", "low", "blue", "upset"] ml = true
  · rw [if_pos h3]; decide
  rw [if_neg h3]
  by_cases h4 : anyHit ["tired", "sluggish", "drained", "exhausted",
    "weary"] ml = true
  · rw [if_pos h4]; decide
  rw [if_neg h4]
  by_cases h5 : anyHit ["bad", "not good", "poor", "rough"] ml = true
  · rw [if_pos h5]; decide
  rw [if_neg h5]
  by_cases h6 : anyHit ["ecstatic", "overjoyed", "blissful", "euphoric",
    "elated"] ml = true
  · rw [if_pos h6]; decide
  rw [if_neg h6]
  by_cases h7 : anyHit ["excited", "amazing", "thrilled", "energetic",
    "pumped"] ml = true
  · rw [if_pos h7]; decide
  rw [if_neg h7]
  by_cases h8 : anyHit ["great", "wonderful", "fantastic", "awesome",
    "excellent"] ml = true
  · rw [if_pos h8]; decide
  rw [if_neg h8]
  by_cases h9 : anyHit ["happy", "positive", "cheerful", "content",
    "joyful"] ml = true
  · rw [if_pos h9]; decide
  rw [if_neg h9]
  by_cases h10 : anyHit ["good", "decent", "alright", "better",
    "well"] ml = true
  · rw [if_pos h10]; decide
  rw [if_neg h10]
  by_cases h11 : anyHit ["okay", "fine", "meh", "so-so"] ml = true
  · rw [if_pos h11]; decide
  rw [if_neg h11]
  by_cases h12 : countHits ["love", "like", "enjoy", "nice", "pleasant",
      "bright"] ml >
      countHits ["hate", "dislike", "stress", "worry", "angry",
        "frustrated"] ml
  · rw [if_pos h12]; decide
  rw [if_neg h12]
  by_cases h13 : countHits ["hate", "dislike", "stress", "worry",
      "angry", "frustrated"] ml >
      countHits ["love", "like", "enjoy", "nice", "pleasant",
        "bright"] ml
  · rw [if_pos h13]; decide
  rw [if_neg h13]
  decide

/-- A property of every anchored capture lifts through the position
scan. -/
theorem searchFirst_some {α : Type} (p : List Char → Option α)
    (P : α → Prop) (hp : ∀ cs a, p cs = some a → P a) :
    ∀ cs a, searchFirst p cs = some a → P a := by
  intro cs
  induction cs with
  | nil => exact fun a h => hp [] a h
  | cons c t ih =>
    intro a h
    unfold searchFirst at h
    cases hh : p (c :: t) with
    | some b =>
      simp only [hh] at h
      injection h with h2
      exact h2 ▸ hp (c :: t) b hh
    | none =>
      simp only [hh] at h
      exact ih a h

/-- A successful `\d{2}` read yields two digits. -/
theorem readTwoDigits_spec (cs : List Char) (a b : Char) (r : List Char)
    (h : readTwoDigits cs = some (a, b, r)) :
    isAsciiDigit a = true ∧ isAsciiDigit b = true := by
  unfold readTwoDigits at h
  split at h
  · split_ifs at h with hd
    simp only [Option.some.injEq, Prod.mk.injEq] at h
    obtain ⟨rfl, rfl, -⟩ := h
    simpa [Bool.and_eq_true, and_assoc] using hd
  · exact absurd h (by simp)

/-- A successful `\d{4}` read yields four digits. -/
theorem readFourDigits_spec (cs : List Char) (a b c d : Char)
    (r : List Char) (h : readFourDigits cs = some (a, b, c, d, r)) :
    isAsciiDigit a = true ∧ isAsciiDigit b = true ∧
    isAsciiDigit c = true ∧ isAsciiDigit d = true := by
  unfold readFourDigits at h
  split at h
  · split_ifs at h with hd
    simp only [Option.some.injEq, Prod.mk.injEq] at h
    obtain ⟨rfl, rfl, rfl, rfl, -⟩ := h
    simpa [Bool.and_eq_true, and_assoc] using hd
  · exact absurd h (by simp)

/-- A successful `\d{1,2}` read yields one or two digits. -/
theorem readOneOrTwoThenSep_spec (sep : Char) (cs ds r : List Char)
    (h : readOneOrTwoThenSep sep cs = some (ds, r)) :
    ∃ a b, (ds = [a] ∧ isAsciiDigit a = true) ∨
      (ds = [a, b] ∧ isAsciiDigit a = true ∧ isAsciiDigit b = true) := by
  unfold readOneOrTwoThenSep at h
  split at h
  · rename_i x y z rest
    split_ifs at h with h1 h2 h3 h4
    · simp only [Option.some.injEq, Prod.mk.injEq] at h
      obtain ⟨rfl, -⟩ := h
      exact ⟨x, y, Or.inr ⟨rfl, h1, h2⟩⟩
    · simp only [Option.some.injEq, Prod.mk.injEq] at h
      obtain ⟨rfl, -⟩ := h
      exact ⟨x, x, Or.inl ⟨rfl, h1⟩⟩
  · rename_i x y
    split_ifs at h with h1 h2 h3
    simp only [Option.some.injEq, Prod.mk.injEq] at h
    obtain ⟨rfl, -⟩ := h
    exact ⟨x, x, Or.inl ⟨rfl, h1⟩⟩
  · exact absurd h (by simp)

/-- `zfill(2)` of a 1-2 digit string is exactly two digits. -/
theorem zfill2_pair (ds : List Char)
    (h : ∃ a b, (ds = [a] ∧ isAsciiDigit a = true) ∨
      (ds = [a, b] ∧ isAsciiDigit a = true ∧ isAsciiDigit b = true)) :
    ∃ a b, zfill2 ds = [a, b] ∧ isAsciiDigit a = true ∧
      isAsciiDigit b = true := by
  obtain ⟨a, b, h | h⟩ := h
  · obtain ⟨rfl, ha⟩ := h
    exact ⟨'0', a, rfl, by decide, ha⟩
  · obtain ⟨rfl, ha, hb⟩ := h
    exact ⟨a, b, rfl, ha, hb⟩

/-- An ISO-pattern match is already `YYYY-MM-DD` shaped. -/
theorem isoDateHere_shape (cs g : List Char)
    (h : isoDateHere cs = some g) : isDateShape g = true := by
  unfold isoDateHere at h
  cases h1 : readFourDigits cs with
  | none => simp [h1] at h
  | some q =>
    obtain ⟨y1, y2, y3, y4, r1⟩ := q
    simp only [h1] at h
    obtain ⟨hy1, hy2, hy3, hy4⟩ := readFourDigits_spec cs y1 y2 y3 y4 r1 h1
    split at h
    · rename_i r2
      cases h2 : readTwoDigits r2 with
      | none => simp [h2] at h
      | some q2 =>
        obtain ⟨m1, m2, r3⟩ := q2
        simp only [h2] at h
        obtain ⟨hm1, hm2⟩ := readTwoDigits_spec r2 m1 m2 r3 h2
        split at h
        · rename_i r4
          cases h3 : readTwoDigits r4 with
          | none => simp [h3] at h
          | some q3 =>
            obtain ⟨d1, d2, r5⟩ := q3
            simp only [h3, Option.some.injEq] at h
            obtain ⟨hd1, hd2⟩ := readTwoDigits_spec r4 d1 d2 r5 h3
            subst h
            simp [isDateShape, hy1, hy2, hy3, hy4, hm1, hm2, hd1, hd2]
        · simp at h
    · simp at h

/-- A converted `\d{1,2}sep\d{1,2}sep\d{4}` match is `YYYY-MM-DD`
shaped. -/
theorem mdyDateHere_shape (sep : Char) (cs g : List Char)
    (h : mdyDateHere sep cs = some g) : isDateShape g = true := by
  unfold mdyDateHere at h
  cases h1 : readOneOrTwoThenSep sep cs with
  | none => simp [h1] at h
  | some q =>
    obtain ⟨m, r1⟩ := q
    simp only [h1] at h
    cases h2 : readOneOrTwoThenSep sep r1 with
    | none => simp [h2] at h
    | some q2 =>
      obtain ⟨d, r2⟩ := q2
      simp only [h2] at h
      cases h3 : readFourDigits r2 with
      | none => simp [h3] at h
      | some q3 =>
        obtain ⟨y1, y2, y3, y4, r5⟩ := q3
        simp only [h3, Option.some.injEq] at h
        subst h
        obtain ⟨hy1, hy2, hy3, hy4⟩ :=
          readFourDigits_spec r2 y1 y2 y3 y4 r5 h3
        obtain ⟨mz1, mz2, hmz, hma, hmb⟩ :=
          zfill2_pair m (readOneOrTwoThenSep_spec sep cs m r1 h1)
        obtain ⟨dz1, dz2, hdz, hda, hdb⟩ :=
          zfill2_pair d (readOneOrTwoThenSep_spec sep r1 d r2 h2)
        rw [hmz, hdz]
        simp [isDateShape, hy1, hy2, hy3, hy4, hma, hmb, hda, hdb]

/-- The date-pattern cascade yields nothing or a normalized
`YYYY-MM-DD` shaped string. -/
theorem dateSearchChain_shape (cs : List Char) :
    dateSearchChain cs = none ∨
    ∃ d, dateSearchChain cs = some d ∧ isDateShape d.toList = true := by
  unfold dateSearchChain
  cases hg : searchFirst isoDateHere cs with
  | some g =>
    exact Or.inr ⟨String.mk g, rfl,
      searchFirst_some isoDateHere (fun x => isDateShape x = true)
        (fun cs2 a ha => isoDateHere_shape cs2 a ha) cs g hg⟩
  | none =>
    cases hm : searchFirst (mdyDateHere '/') cs with
    | some g =>
      exact Or.inr ⟨String.mk g, rfl,
        searchFirst_some (mdyDateHere '/') (fun x => isDateShape x = true)
          (fun cs2 a ha => mdyDateHere_shape '/' cs2 a ha) cs g hm⟩
    | none =>
      cases hm2 : searchFirst (mdyDateHere '-') cs with
      | some g =>
        exact Or.inr ⟨String.mk g, rfl,
          searchFirst_some (mdyDateHere '-') (fun x => isDateShape x = true)
            (fun cs2 a ha => mdyDateHere_shape '-' cs2 a ha) cs g hm2⟩
      | none => exact Or.inl rfl

/-- The date extractor returns null, one of the three relative dates,
or a normalized `YYYY-MM-DD` shaped string. -/
theorem extract_date_cases (today tomorrow yesterday s : String) :
    extract_date_from_input today tomorrow yesterday s = none ∨
    extract_date_from_input today tomorrow yesterday s = some today ∨
    extract_date_from_input today tomorrow yesterday s = some tomorrow ∨
    extract_date_from_input today tomorrow yesterday s = some yesterday ∨
    (∃ d, extract_date_from_input today tomorrow yesterday s = some d ∧
      isDateShape d.toList = true) := by
  unfold extract_date_from_input
  by_cases h1 : occursIn "today" (lowerL s.toList) = true
  · rw [if_pos h1]
    exact Or.inr (Or.inl rfl)
  rw [if_neg h1]
  by_cases h2 : occursIn "tomorrow" (lowerL s.toList) = true
  · rw [if_pos h2]
    exact Or.inr (Or.inr (Or.inl rfl))
  rw [if_neg h2]
  by_cases h3 : occursIn "yesterday" (lowerL s.toList) = true
  · rw [if_pos h3]
    exact Or.inr (Or.inr (Or.inr (Or.inl rfl)))
  rw [if_neg h3]
  rcases dateSearchChain_shape s.toList with h | ⟨d, hd, hshape⟩
  · exact Or.inl h
  · exact Or.inr (Or.inr (Or.inr (Or.inr ⟨d, hd, hshape⟩)))

/-- The meal extractor returns the trimmed remainder of the input
after the matched prefix, or the trimmed original input. -/
theorem extract_meal_description_suffix (s : String) :
    ∃ n, extract_meal_description s =
      String.mk (stripL (s.toList.drop n)) := by
  unfold extract_meal_description
  cases hf : ["i ate", "i had", "just ate", "just had", "meal:", "food:",
      "consumed", "eaten", "my meal was", "for lunch i had",
      "for dinner i had", "for breakfast i had"].find?
      (fun p => startsWithL p.toList (lowerL s.toList)) with
  | some p => exact ⟨p.toList.length, rfl⟩
  | none => exact ⟨0, by rw [List.drop_zero]⟩

/-- Every return site of the name cascade is a stripped string. -/
theorem nameSearchChain_stripped (tl orig : List Char) :
    ∃ cs, nameSearchChain tl orig = String.mk (stripL cs) := by
  unfold nameSearchChain
  cases h1 : searchFirst (literalCaptureHere "my name is ".toList) tl with
  | some cap => exact ⟨cap, rfl⟩
  | none =>
    cases h2 : searchFirst (literalCaptureHere "i am ".toList) tl with
    | some cap => exact ⟨cap, rfl⟩
    | none =>
      cases h3 : searchFirst nameColonHere tl with
      | some cap => exact ⟨cap, rfl⟩
      | none =>
        cases h4 : searchFirst (literalCaptureHere "called ".toList) tl with
        | some cap => exact ⟨cap, rfl⟩
        | none =>
          cases h5 : searchFirst
              (literalCaptureHere "i\x27m ".toList) tl with
          | some cap => exact ⟨cap, rfl⟩
          | none => exact ⟨orig, rfl⟩

/-- The name extractor always yields a stripped capture or the
stripped original input. -/
theorem extract_name_stripped (s : String) :
    ∃ cs, extract_name_from_input s = String.mk (stripL cs) := by
  unfold extract_name_from_input
  exact nameSearchChain_stripped (lowerL s.toList) s.toList

/-- C6: the mood-to-score mapping is total with values in [1,10]
(defaulting to 5 only through the final else of the fuzzy ladder); the
mood-label extractor always returns one of its fixed labels; the
glucose extractor returns a value exactly when a digit is present,
`None` otherwise; the meal-description extractor returns the trimmed
remainder after a stripped prefix or the trimmed original text; the
name extractor returns a stripped capture or the stripped original
input; and the date extractor returns null, a relative date, or a
normalized `YYYY-MM-DD` shaped string -- all embedded extractors are
total functions, so no input raises. -/
theorem extractors_total (s today tomorrow yesterday : String) :
    1 ≤ convert_mood_to_score s ∧ convert_mood_to_score s ≤ 10 ∧
    extract_simple_mood_label s ∈
      ["terrible", "depressed", "sad", "tired", "bad", "ecstatic",
       "excited", "great", "happy", "good", "okay", "down", "neutral"] ∧
    (extract_glucose_reading s).isSome =
      (lowerL s.toList).any isAsciiDigit ∧
    (∃ n, extract_meal_description s =
      String.mk (stripL (s.toList.drop n))) ∧
    (∃ cs, extract_name_from_input s = String.mk (stripL cs)) ∧
    (extract_date_from_input today tomorrow yesterday s = none ∨
     extract_date_from_input today tomorrow yesterday s = some today ∨
     extract_date_from_input today tomorrow yesterday s = some tomorrow ∨
     extract_date_from_input today tomorrow yesterday s = some yesterday ∨
     (∃ d, extract_date_from_input today tomorrow yesterday s = some d ∧
       isDateShape d.toList = true)) := by
  have hfb : ∀ ml, 1 ≤ moodScoreFallback ml ∧ moodScoreFallback ml ≤ 10 := by
    intro ml
    unfold moodScoreFallback
    split_ifs <;> omega
  have hb : 1 ≤ convert_mood_to_score s ∧ convert_mood_to_score s ≤ 10 := by
    unfold convert_mood_to_score
    rcases hf : mood_scores.find?
        (fun p => p.1.toList == stripL (lowerL s.toList)) with _ | p
    · simp only [hf]
      exact hfb _
    · simp only [hf]
      have hmem := List.mem_of_find?_eq_some hf
      have hall : ∀ q ∈ mood_scores, 1 ≤ q.2 ∧ q.2 ≤ 10 := by decide
      exact hall p hmem
  exact ⟨hb.1, hb.2, simpleMoodLabelCore_mem _,
    extract_glucose_reading_isSome s, extract_meal_description_suffix s,
    extract_name_stripped s, extract_date_cases today tomorrow yesterday s⟩

/-- C7: the "I\x27m feeling really great today!" scenario: intent
`mood_tracking`, prefix-stripped mood text "really great today!",
extracted simple label "great", score 8. -/
theorem feeling_great_scenario :
    detect_primary_intent "I\x27m feeling really great today!" =
      .mood_tracking ∧
    extract_mood_from_input "I\x27m feeling really great today!" =
      "really great today!" ∧
    extract_simple_mood_label
      (extract_mood_from_input "I\x27m feeling really great today!") =
      "great" ∧
    convert_mood_to_score
      (extract_simple_mood_label
        (extract_mood_from_input "I\x27m feeling really great today!")) =
      8 :=
  ⟨by decide, by decide, by decide, by decide⟩

/-- A user with no diabetic condition resolves to the "None" entry
(when the conditions list is empty or lists "None") or to the default
entry. -/
theorem non_diabetic_range (conds : List String)
    (h1 : "Type 1 Diabetes" ∉ conds) (h2 : "Type 2 Diabetes" ∉ conds)
    (h3 : "Pre-diabetes" ∉ conds) :
    get_user_cgm_range (some conds) = cgmRangeNone ∨
    get_user_cgm_range (some conds) = cgmRangeDefault := by
  simp only [get_user_cgm_range]
  rw [if_neg h1, if_neg h2, if_neg h3]
  by_cases h4 : "None" ∈ conds ∨ conds = []
  · rw [if_pos h4]
    exact Or.inl rfl
  · rw [if_neg h4]
    exact Or.inr rfl

/-- C3 (amended): for the input "My glucose reading is 120" the intent
is `cgm_monitoring`, the extracted reading is 120.0, and for a user
whose medical conditions contain no diabetic condition the severity is
`normal`; the applicable target range however has `target_max` 140
(with `target_min` 70 for the "None" entry or 80 for the default
entry), not the 70-180 band the original claim names. -/
theorem glucose_120_scenario (conds : List String)
    (h1 : "Type 1 Diabetes" ∉ conds) (h2 : "Type 2 Diabetes" ∉ conds)
    (h3 : "Pre-diabetes" ∉ conds) :
    detect_primary_intent "My glucose reading is 120" = .cgm_monitoring ∧
    extract_glucose_reading "My glucose reading is 120" = some 120 ∧
    classifyReading 120 (get_user_cgm_range (some conds)) = .normal ∧
    (get_user_cgm_range (some conds)).target_max = 140 ∧
    ((get_user_cgm_range (some conds)).target_min = 70 ∨
     (get_user_cgm_range (some conds)).target_min = 80) := by
  rcases non_diabetic_range conds h1 h2 h3 with h | h <;> rw [h] <;>
    exact ⟨by decide, by decide, by decide, by decide, by decide⟩

/-- Counterexample to C3 as stated: for a non-diabetic user (medical
conditions ["Hypertension"]) the range actually applied is the default
entry, whose target range is 80-140 -- not a 70-180 target band. -/
theorem glucose_120_counterexample :
    get_user_cgm_range (some ["Hypertension"]) = cgmRangeDefault ∧
    (get_user_cgm_range (some ["Hypertension"])).target_min = 80 ∧
    (get_user_cgm_range (some ["Hypertension"])).target_max = 140 ∧
    ¬((get_user_cgm_range (some ["Hypertension"])).target_min = 70 ∧
      (get_user_cgm_range (some ["Hypertension"])).target_max = 180) := by
  decide

/-- Witness for `glucose_120_scenario` at the conditions list
["Hypertension"]. -/
theorem glucose_120_scenario_witness :
    "Type 1 Diabetes" ∉ ["Hypertension"] ∧
    "Type 2 Diabetes" ∉ ["Hypertension"] ∧
    "Pre-diabetes" ∉ ["Hypertension"] ∧
    (detect_primary_intent "My glucose reading is 120" = .cgm_monitoring ∧
     extract_glucose_reading "My glucose reading is 120" = some 120 ∧
     classifyReading 120 (get_user_cgm_range (some ["Hypertension"])) =
       .normal ∧
     (get_user_cgm_range (some ["Hypertension"])).target_max = 140 ∧
     ((get_user_cgm_range (some ["Hypertension"])).target_min = 70 ∨
      (get_user_cgm_range (some ["Hypertension"])).target_min = 80)) :=
  ⟨by decide, by decide, by decide,
    glucose_120_scenario ["Hypertension"] (by decide) (by decide)
      (by decide)⟩

/-! ## Argmax semantics of the classifier -/

/-- Characterization of the argmax selection: `general_question` exactly
when all scores are zero; otherwise the returned category attains the
maximum, every earlier category (in the evaluation order mood, glucose,
food, meal-planning, insights) scores strictly less, and every later
one scores no more. -/
theorem argmaxIntentCore_spec (m c f p i : Nat) :
    (argmaxIntentCore m c f p i = .general_question ↔
      m = 0 ∧ c = 0 ∧ f = 0 ∧ p = 0 ∧ i = 0) ∧
    (argmaxIntentCore m c f p i = .mood_tracking →
      0 < m ∧ c ≤ m ∧ f ≤ m ∧ p ≤ m ∧ i ≤ m) ∧
    (argmaxIntentCore m c f p i = .cgm_monitoring →
      0 < c ∧ m < c ∧ f ≤ c ∧ p ≤ c ∧ i ≤ c) ∧
    (argmaxIntentCore m c f p i = .food_logging →
      0 < f ∧ m < f ∧ c < f ∧ p ≤ f ∧ i ≤ f) ∧
    (argmaxIntentCore m c f p i = .meal_planning →
      0 < p ∧ m < p ∧ c < p ∧ f < p ∧ i ≤ p) ∧
    (argmaxIntentCore m c f p i = .insights_request →
      0 < i ∧ m < i ∧ c < i ∧ f < i ∧ p < i) := by
  unfold argmaxIntentCore argmaxPick
  split_ifs
  · exact ⟨iff_of_false not_false (by omega), fun _ => by omega,
      fun hh => hh.elim, fun hh => hh.elim, fun hh => hh.elim,
      fun hh => hh.elim⟩
  · exact ⟨iff_of_false not_false (by omega), fun hh => hh.elim,
      fun _ => by omega, fun hh => hh.elim, fun hh => hh.elim,
      fun hh => hh.elim⟩
  · exact ⟨iff_of_false not_false (by omega), fun hh => hh.elim,
      fun hh => hh.elim, fun _ => by omega, fun hh => hh.elim,
      fun hh => hh.elim⟩
  · exact ⟨iff_of_false not_false (by omega), fun hh => hh.elim,
      fun hh => hh.elim, fun hh => hh.elim, fun _ => by omega,
      fun hh => hh.elim⟩
  · exact ⟨iff_of_false not_false (by omega), fun hh => hh.elim,
      fun hh => hh.elim, fun hh => hh.elim, fun hh => hh.elim,
      fun _ => by omega⟩
  · exact ⟨iff_of_true rfl (by omega), fun hh => hh.elim,
      fun hh => hh.elim, fun hh => hh.elim, fun hh => hh.elim,
      fun hh => hh.elim⟩

/-- C5 (amended): for every input on which no numeric glucose override
pattern matches, `_detect_primary_intent` returns the category with the
strictly highest score among the five, resolving nonzero ties to the
earliest category in the evaluation order mood, glucose, food,
meal-planning, insights, and returns `general_question` exactly when
all five scores are zero.  (The original claim, quantified over every
input, fails on inputs where the glucose override fires: see the
counterexample.) -/
theorem intent_argmax (s : String)
    (h : cgmValueMatch (prepInput s) = false) :
    (detect_primary_intent s = .general_question ↔
      calculate_mood_score (prepInput s) = 0 ∧
      calculate_cgm_score (prepInput s) = 0 ∧
      calculate_food_score (prepInput s) = 0 ∧
      calculate_planning_score (prepInput s) = 0 ∧
      calculate_insights_score (prepInput s) = 0) ∧
    (detect_primary_intent s = .mood_tracking →
      0 < calculate_mood_score (prepInput s) ∧
      calculate_cgm_score (prepInput s) ≤ calculate_mood_score (prepInput s) ∧
      calculate_food_score (prepInput s) ≤ calculate_mood_score (prepInput s) ∧
      calculate_planning_score (prepInput s) ≤
        calculate_mood_score (prepInput s) ∧
      calculate_insights_score (prepInput s) ≤
        calculate_mood_score (prepInput s)) ∧
    (detect_primary_intent s = .cgm_monitoring →
      0 < calculate_cgm_score (prepInput s) ∧
      calculate_mood_score (prepInput s) < calculate_cgm_score (prepInput s) ∧
      calculate_food_score (prepInput s) ≤ calculate_cgm_score (prepInput s) ∧
      calculate_planning_score (prepInput s) ≤
        calculate_cgm_score (prepInput s) ∧
      calculate_insights_score (prepInput s) ≤
        calculate_cgm_score (prepInput s)) ∧
    (detect_primary_intent s = .food_logging →
      0 < calculate_food_score (prepInput s) ∧
      calculate_mood_score (prepInput s) < calculate_food_score (prepInput s) ∧
      calculate_cgm_score (prepInput s) < calculate_food_score (prepInput s) ∧
      calculate_planning_score (prepInput s) ≤
        calculate_food_score (prepInput s) ∧
      calculate_insights_score (prepInput s) ≤
        calculate_food_score (prepInput s)) ∧
    (detect_primary_intent s = .meal_planning →
      0 < calculate_planning_score (prepInput s) ∧
      calculate_mood_score (prepInput s) <
        calculate_planning_score (prepInput s) ∧
      calculate_cgm_score (prepInput s) <
        calculate_planning_score (prepInput s) ∧
      calculate_food_score (prepInput s) <
        calculate_planning_score (prepInput s) ∧
      calculate_insights_score (prepInput s) ≤
        calculate_planning_score (prepInput s)) ∧
    (detect_primary_intent s = .insights_request →
      0 < calculate_insights_score (prepInput s) ∧
      calculate_mood_score (prepInput s) <
        calculate_insights_score (prepInput s) ∧
      calculate_cgm_score (prepInput s) <
        calculate_insights_score (prepInput s) ∧
      calculate_food_score (prepInput s) <
        calculate_insights_score (prepInput s) ∧
      calculate_planning_score (prepInput s) <
        calculate_insights_score (prepInput s)) := by
  have hd : detect_primary_intent s =
      argmaxIntentCore (calculate_mood_score (prepInput s))
        (calculate_cgm_score (prepInput s))
        (calculate_food_score (prepInput s))
        (calculate_planning_score (prepInput s))
        (calculate_insights_score (prepInput s)) := by
    simp [detect_primary_intent, h]
  rw [hd]
  exact argmaxIntentCore_spec _ _ _ _ _

/-- Counterexample to C5 as stated: on "120 mg i feel happy" the mood
score strictly dominates every other score (so mood_tracking is the
unique highest-scoring category), yet the classifier returns
`cgm_monitoring` because the numeric glucose override fires first. -/
theorem intent_argmax_counterexample :
    detect_primary_intent "120 mg i feel happy" = .cgm_monitoring ∧
    calculate_cgm_score (prepInput "120 mg i feel happy") <
      calculate_mood_score (prepInput "120 mg i feel happy") ∧
    calculate_food_score (prepInput "120 mg i feel happy") <
      calculate_mood_score (prepInput "120 mg i feel happy") ∧
    calculate_planning_score (prepInput "120 mg i feel happy") <
      calculate_mood_score (prepInput "120 mg i feel happy") ∧
    calculate_insights_score (prepInput "120 mg i feel happy") <
      calculate_mood_score (prepInput "120 mg i feel happy") := by
  decide

/-- Witness for `intent_argmax`: an input with no glucose pattern and
all five scores zero classifies as `general_question`. -/
theorem intent_argmax_witness :
    cgmValueMatch (prepInput "hello there") = false ∧
    detect_primary_intent "hello there" = .general_question :=
  ⟨by decide, (intent_argmax "hello there" (by decide)).1.mpr (by decide)⟩

/-! ## Authentication resolver (`_looks_like_user_id`,
`_looks_like_name_search`, `_handle_authentication`) -/

/-- `re.match(r'^\d{4}$', text)`: exactly four digits; Python's `$`
also matches just before one final newline, so a trailing newline after
the four digits is accepted too. -/
def fourDigitIdMatch (cs : List Char) : Bool :=
  match cs with
  | [a, b, c, d] =>
    isAsciiDigit a && isAsciiDigit b && isAsciiDigit c && isAsciiDigit d
  | [a, b, c, d, '\n'] =>
    isAsciiDigit a && isAsciiDigit b && isAsciiDigit c && isAsciiDigit d
  | _ => false

/-- The character class `[a-f0-9-]`. -/
def isHexLikeChar (c : Char) : Bool :=
  ('a' ≤ c && c ≤ 'f') || isAsciiDigit c || c = '-'

/-- The character class `[a-f0-9]`. -/
def isHexDigitChar (c : Char) : Bool :=
  ('a' ≤ c && c ≤ 'f') || isAsciiDigit c

/-- Lift a full matcher over `$` semantics: the pattern may also match
with one final newline left over (no pattern here can itself match a
newline). -/
def withFinalNewline (p : List Char → Bool) (cs : List Char) : Bool :=
  p cs ||
    (match cs.getLast? with
     | some '\n' => p cs.dropLast
     | _ => false)

/-- `^[a-f0-9-]{8,}$` as a full match. -/
def hexLikeCore (cs : List Char) : Bool :=
  decide (8 ≤ cs.length) && cs.all isHexLikeChar

/-- Consume exactly `n` hex digits. -/
def hexRun : Nat → List Char → Option (List Char)
  | 0, cs => some cs
  | _ + 1, [] => none
  | n + 1, c :: t => if isHexDigitChar c then hexRun n t else none

/-- The canonical UUID pattern
`^[a-f0-9]{8}-[a-f0-9]{4}-[a-f0-9]{4}-[a-f0-9]{4}-[a-f0-9]{12}$` as a
full match. -/
def uuidCore (cs : List Char) : Bool :=
  match hexRun 8 cs with
  | some ('-' :: r1) =>
    match hexRun 4 r1 with
    | some ('-' :: r2) =>
      match hexRun 4 r2 with
      | some ('-' :: r3) =>
        match hexRun 4 r3 with
        | some ('-' :: r4) =>
          match hexRun 12 r4 with
          | some [] => true
          | _ => false
        | _ => false
      | _ => false
    | _ => false
  | _ => false

/-- `HealthAgentSystem._looks_like_user_id`: a 4-digit numeric ID, an
8+ character hex-like token (checked on the lowered text), or a
canonical UUID (lowered). -/
def looks_like_user_id (text : String) : Bool :=
  fourDigitIdMatch text.toList ||
  withFinalNewline hexLikeCore (lowerL text.toList) ||
  withFinalNewline uuidCore (lowerL text.toList)

/-- `HealthAgentSystem._looks_like_name_search`. -/
def looks_like_name_search (text : String) : Bool :=
  anyHit ["my name is", "i am", "name:", "called", "i\x27m"]
    (lowerL text.toList)

/-- How `_handle_authentication` classifies an unauthenticated
utterance: the ID-shape check is tried first, then the name-search
phrases, then the generic help prompt. -/
inductive AuthRoute where
  | userId
  | nameSearch
  | generalHelp
  deriving DecidableEq, Repr

/-- The branch selection of `_handle_authentication`. -/
def authRoute (input : String) : AuthRoute :=
  if looks_like_user_id input then .userId
  else if looks_like_name_search input then .nameSearch
  else .generalHelp

/-- C8: an input whose content is exactly a 4-digit numeric token
passes the ID-shape check, and the authentication flow takes the
user-ID branch, never the name-search branch. -/
theorem four_digit_is_user_id (s : String)
    (hlen : s.toList.length = 4)
    (hdig : ∀ c ∈ s.toList, isAsciiDigit c = true) :
    looks_like_user_id s = true ∧ authRoute s = .userId ∧
    authRoute s ≠ .nameSearch := by
  have h4 : fourDigitIdMatch s.toList = true := by
    rcases hl : s.toList with _ | ⟨a, _ | ⟨b, _ | ⟨c, _ | ⟨d, _ | ⟨e, r⟩⟩⟩⟩⟩ <;>
      rw [hl] at hlen hdig <;> simp_all [fourDigitIdMatch]
  have hid : looks_like_user_id s = true := by
    unfold looks_like_user_id
    rw [h4]
    rfl
  refine ⟨hid, ?_, ?_⟩ <;> simp [authRoute, hid]

/-- Witness for `four_digit_is_user_id` at the input "1234". -/
theorem four_digit_is_user_id_witness :
    ("1234".toList.length = 4 ∧
      ∀ c ∈ "1234".toList, isAsciiDigit c = true) ∧
    (looks_like_user_id "1234" = true ∧ authRoute "1234" = .userId ∧
      authRoute "1234" ≠ .nameSearch) :=
  ⟨⟨by decide, by decide⟩,
    four_digit_is_user_id "1234" (by decide) (by decide)⟩

/-! ## Domain handler guards (`log_mood`, `log_meal`,
`generate_meal_plan`, trend and insight retrieval) and logout -/

/-- Result of `MoodTrackerAgent.log_mood`.  `errNotLoggedIn` is the
`status: error` dict with message "Please log in first before logging
your mood."; `ok` carries the stored simple label and score. -/
inductive MoodLogOutcome where
  | errNotLoggedIn
  | ok (label : String) (score : Nat)
  deriving DecidableEq, Repr

/-- `MoodTrackerAgent.log_mood`: guard on the authenticated user, then
extract the simple label, convert it, store the mood and log the
interaction (`get_mood_rolling_average` only reads). -/
def log_mood (user : Option String) (moodInput : String) :
    MoodLogOutcome × List DbWrite :=
  match user with
  | none => (.errNotLoggedIn, [])
  | some uid =>
    (.ok (extract_simple_mood_label moodInput)
       (convert_mood_to_score (extract_simple_mood_label moodInput)),
     [.mood uid (extract_simple_mood_label moodInput)
        (convert_mood_to_score (extract_simple_mood_label moodInput)),
      .interaction uid "MoodTrackerAgent" "Database" "mood_logging"])

/-- Result of `FoodIntakeAgent.log_meal`.  `errNotLoggedIn` is the
"Please log in first before logging meals." error; `errAnalysis` the
error dict forwarded from `analyze_meal_description` (empty description
or a failed LLM call). -/
inductive FoodLogOutcome where
  | errNotLoggedIn
  | errAnalysis
  | ok
  deriving DecidableEq, Repr

/-- `FoodIntakeAgent.log_meal`.  `llmNutrients` embeds the outcome of
`llm_client.categorize_food_nutrients` (`none` = the call raised and
`analyze_meal_description` returned its error dict).  On success the
food intake is stored and the interaction logged
(`validate_user_id` and `get_recent_nutrition_data` only read). -/
def log_meal (user : Option String) (mealDescription : String)
    (llmNutrients : Option (ℚ × ℚ × ℚ × ℚ)) :
    FoodLogOutcome × List DbWrite :=
  match user with
  | none => (.errNotLoggedIn, [])
  | some uid =>
    if (stripL mealDescription.toList).isEmpty then (.errAnalysis, [])
    else
      match llmNutrients with
      | none => (.errAnalysis, [])
      | some _ =>
        (.ok,
         [.foodIntake uid mealDescription,
          .interaction uid "FoodIntakeAgent" "Database" "meal_logging"])

/-- Result of `MealPlannerAgent.generate_meal_plan`.  `errNotLoggedIn`
is the "Please log in first to generate a meal plan." error;
`errNoContext` the "Unable to retrieve user information" error;
`errGeneration` the except-branch error with the fallback plan. -/
inductive MealPlanOutcome where
  | errNotLoggedIn
  | errNoContext
  | errGeneration
  | ok
  deriving DecidableEq, Repr

/-- `MealPlannerAgent.generate_meal_plan`: guard, context check, then
the interaction log is written before the LLM call; the plan itself is
stored only when generation succeeds (`llmOk`). -/
def generate_meal_plan (user : Option String) (planDate : String)
    (hasUserContext : Bool) (llmOk : Bool) :
    MealPlanOutcome × List DbWrite :=
  match user with
  | none => (.errNotLoggedIn, [])
  | some uid =>
    if !hasUserContext then (.errNoContext, [])
    else if llmOk then
      (.ok,
       [.interaction uid "MealPlannerAgent" "UserContext" "meal_planning",
        .mealPlan uid planDate])
    else
      (.errGeneration,
       [.interaction uid "MealPlannerAgent" "UserContext" "meal_planning"])

/-- Result of the read-aggregate handlers (`get_mood_trends`,
`get_glucose_trends`, `get_nutrition_insights`): the
"Please log in first" error, or success carrying the entry count the
database reported. -/
inductive TrendsOutcome where
  | errNotLoggedIn
  | ok (entriesCount : Nat)
  deriving DecidableEq, Repr

/-- `MoodTrackerAgent.get_mood_trends`: guard; with no entries a
message-only success, otherwise a trend-analysis interaction log is the
single write. -/
def get_mood_trends (user : Option String) (entriesCount : Nat) :
    TrendsOutcome × List DbWrite :=
  match user with
  | none => (.errNotLoggedIn, [])
  | some uid =>
    if entriesCount = 0 then (.ok 0, [])
    else
      (.ok entriesCount,
       [.interaction uid "MoodTrackerAgent" "User" "trend_analysis"])

/-- `CGMAgent.get_glucose_trends`, same shape. -/
def get_glucose_trends (user : Option String) (readingsCount : Nat) :
    TrendsOutcome × List DbWrite :=
  match user with
  | none => (.errNotLoggedIn, [])
  | some uid =>
    if readingsCount = 0 then (.ok 0, [])
    else
      (.ok readingsCount,
       [.interaction uid "CGMAgent" "User" "trend_analysis"])

/-- `FoodIntakeAgent.get_nutrition_insights`, same shape. -/
def get_nutrition_insights (user : Option String) (entriesCount : Nat) :
    TrendsOutcome × List DbWrite :=
  match user with
  | none => (.errNotLoggedIn, [])
  | some uid =>
    if entriesCount = 0 then (.ok 0, [])
    else
      (.ok entriesCount,
       [.interaction uid "FoodIntakeAgent" "User" "nutrition_analysis"])

/-- The session-relevant fields of `HealthAgentSystem`: the
authenticated user, their name, the `system_state` string, and the four
per-user agent slots (`none` embeds Python `None`; a slot holds the
user id it was initialized with). -/
structure SystemState where
  authenticated_user_id : Option String
  current_user_name : Option String
  system_state : String
  cgm_agent : Option String
  mood_tracker_agent : Option String
  food_intake_agent : Option String
  meal_planner_agent : Option String
  deriving DecidableEq, Repr

/-- `HealthAgentSystem.__init__`: unauthenticated, no user, no agents. -/
def initialState : SystemState :=
  ⟨none, none, "unauthenticated", none, none, none, none⟩

/-- `HealthAgentSystem._handle_logout`: reset the user fields, set the
state to "unauthenticated" and clear the four authenticated agents. -/
def handle_logout (_st : SystemState) : SystemState :=
  { authenticated_user_id := none, current_user_name := none,
    system_state := "unauthenticated", cgm_agent := none,
    mood_tracker_agent := none, food_intake_agent := none,
    meal_planner_agent := none }

/-- C4: with no authenticated user id set, every domain handler (mood
logging, glucose processing, food logging, meal-plan generation, and
the three trend/insight readers) returns its structured "please log in"
error and performs no database write; logout moves any state to
`unauthenticated`, clearing the user and all four agent slots, and a
handler invoked with the logged-out user id again fails closed.  (All
embedded handlers are total functions, so none raises.) -/
theorem unauthenticated_handlers_fail (moodInput mealDescription planDate :
      String) (llmNutrients : Option (ℚ × ℚ × ℚ × ℚ))
    (hasUserContext llmOk : Bool) (userConditions : Option (List String))
    (r : ℚ) (nMood nCgm nFood : Nat) (st : SystemState) :
    log_mood none moodInput = (.errNotLoggedIn, []) ∧
    process_glucose_reading none userConditions r = (.errNotLoggedIn, []) ∧
    log_meal none mealDescription llmNutrients = (.errNotLoggedIn, []) ∧
    generate_meal_plan none planDate hasUserContext llmOk =
      (.errNotLoggedIn, []) ∧
    get_mood_trends none nMood = (.errNotLoggedIn, []) ∧
    get_glucose_trends none nCgm = (.errNotLoggedIn, []) ∧
    get_nutrition_insights none nFood = (.errNotLoggedIn, []) ∧
    handle_logout st = initialState ∧
    (handle_logout st).authenticated_user_id = none ∧
    (handle_logout st).system_state = "unauthenticated" ∧
    log_mood (handle_logout st).authenticated_user_id moodInput =
      (.errNotLoggedIn, []) :=
  ⟨rfl, rfl, rfl, rfl, rfl, rfl, rfl, rfl, rfl, rfl, rfl⟩

/-! ## Turn boundary (`process_user_input`,
`_route_authenticated_request`, `_handle_authentication`)

Collaborator calls that can raise (database and agent calls) are
embedded as `Except String` values, the error carrying `str(e)`; pure
Python control flow stays pure.  A propagated `.error` is an exception
reaching the delivery layer. -/

/-- The reply dict a turn produces, by originating `return` site:
`emptyPrompt` is "Please enter a message!"; `welcome`, `invalidId`,
`singleMatch`, `multiMatch`, `notFound`, `authHelp` the authentication
replies; `featureList` the `explain_system_features` reply;
`logoutDone` the goodbye reply; `handlerReply` the dict built by the
matched intent handler; `systemError` the except-branch reply
"Sorry, I encountered an error: ..." with agent `SystemError`. -/
inductive Reply where
  | emptyPrompt
  | welcome (name city : String)
  | invalidId
  | singleMatch (suggestedUserId : String)
  | multiMatch (count : Nat)
  | notFound
  | authHelp
  | featureList
  | logoutDone
  | handlerReply (payload : String)
  | systemError (e : String)
  deriving DecidableEq, Repr

/-- The collaborators a turn calls, each able to raise.
`validateUser` is `greeting_agent.validate_user_id` (the user's name
and city on success, `none` for an unknown id); `searchUsers` is
`search_users_by_name` applied to `_extract_name_from_input` of the
utterance (user id, name, city per candidate); `handleIntent` is the
body of the matched `_handle_<intent>` (its interaction logging, agent
call and reply formatting), the part the `try` of
`_route_authenticated_request` wraps. -/
structure TurnEnv where
  validateUser : String → Except String (Option (String × String))
  searchUsers : String → Except String (List (String × String × String))
  handleIntent : Intent → String → Except String String

/-- Python `str.lower` on a `String`. -/
def lowerStr (s : String) : String :=
  String.mk (lowerL s.toList)

/-- `HealthAgentSystem._handle_authentication`: ID-shape check first,
then name search, then the generic help prompt.  There is no
try/except here: a collaborator error propagates. -/
def handle_authentication (env : TurnEnv) (input : String) :
    Except String Reply :=
  if looks_like_user_id input then
    match env.validateUser input with
    | .error e => .error e
    | .ok (some (name, city)) => .ok (.welcome name city)
    | .ok none => .ok .invalidId
  else if looks_like_name_search input then
    match env.searchUsers input with
    | .error e => .error e
    | .ok [] => .ok .notFound
    | .ok [u] => .ok (.singleMatch u.1)
    | .ok us => .ok (.multiMatch us.length)
  else .ok .authHelp

/-- The two system-command lists checked before intent dispatch. -/
def isSystemCommand (input : String) : Bool :=
  decide (lowerStr input ∈ ["help", "features", "what can you do",
    "options"]) ||
  decide (lowerStr input ∈ ["logout", "sign out", "exit"])

/-- `HealthAgentSystem._route_authenticated_request`: system commands
first (outside the try), then intent detection (outside the try), then
the dispatch to the matched handler inside `try ... except Exception`:
a handler error becomes the `systemError` reply. -/
def route_authenticated_request (env : TurnEnv) (input : String) :
    Except String Reply :=
  if lowerStr input ∈ ["help", "features", "what can you do",
      "options"] then .ok .featureList
  else if lowerStr input ∈ ["logout", "sign out", "exit"] then
    .ok .logoutDone
  else
    match env.handleIntent (detect_primary_intent input) input with
    | .ok payload => .ok (.handlerReply payload)
    | .error e => .ok (.systemError e)

/-- `HealthAgentSystem.process_user_input`: strip, reject empty input,
route to authentication while unauthenticated, else to the
authenticated router. -/
def process_user_input (env : TurnEnv) (st : SystemState)
    (input : String) : Except String Reply :=
  if (stripL input.toList).isEmpty then .ok .emptyPrompt
  else if st.system_state = "unauthenticated" then
    handle_authentication env (String.mk (stripL input.toList))
  else route_authenticated_request env (String.mk (stripL input.toList))

/-- The authenticated router never lets an error escape. -/
theorem route_never_raises (env : TurnEnv) (input : String) :
    ∃ r, route_authenticated_request env input = .ok r := by
  unfold route_authenticated_request
  split_ifs
  · exact ⟨.featureList, rfl⟩
  · exact ⟨.logoutDone, rfl⟩
  · cases h : env.handleIntent (detect_primary_intent input) input with
    | error e => exact ⟨.systemError e, rfl⟩
    | ok payload => exact ⟨.handlerReply payload, rfl⟩

/-- A collaborator environment whose every call raises. -/
def throwingEnv : TurnEnv :=
  { validateUser := fun _ => .error "database failure",
    searchUsers := fun _ => .error "database failure",
    handleIntent := fun _ _ => .error "database failure" }

/-- An authenticated session state. -/
def authedState : SystemState :=
  ⟨some "1001", some "Jane", "authenticated", some "1001", some "1001",
   some "1001", some "1001"⟩

/-- C9 (amended): while authenticated, a turn always produces a reply:
the try/except around intent dispatch converts a raising handler into
the "Sorry, I encountered an error" reply, for every environment and
input.  (The original claim also asserted this for the Unauthenticated
state, where no such boundary exists: see the counterexample.) -/
theorem turn_dispatch_catches (env : TurnEnv) (st : SystemState)
    (input s' e : String)
    (hauth : st.system_state ≠ "unauthenticated") :
    (∃ r, process_user_input env st input = .ok r) ∧
    (isSystemCommand s' = false →
      env.handleIntent (detect_primary_intent s') s' = .error e →
      route_authenticated_request env s' = .ok (.systemError e)) := by
  constructor
  · unfold process_user_input
    by_cases h1 : (stripL input.toList).isEmpty = true
    · rw [if_pos h1]
      exact ⟨.emptyPrompt, rfl⟩
    · rw [if_neg h1, if_neg hauth]
      exact route_never_raises env _
  · intro hcmd herr
    simp only [isSystemCommand, Bool.or_eq_false_iff,
      decide_eq_false_iff_not] at hcmd
    unfold route_authenticated_request
    rw [if_neg hcmd.1, if_neg hcmd.2, herr]

/-- Counterexample to C9 as stated: in the Unauthenticated state the
authentication flow has no exception boundary, so a raising
database-validation call propagates out of `process_user_input` to the
delivery layer instead of becoming a "sorry" reply. -/
theorem turn_error_counterexample :
    process_user_input throwingEnv initialState "1234" =
      .error "database failure" := rfl

/-- Witness for `turn_dispatch_catches`: with every collaborator
raising, an authenticated turn still yields a reply, and a
non-command input maps the handler error to the `systemError` reply. -/
theorem turn_dispatch_catches_witness :
    authedState.system_state ≠ "unauthenticated" ∧
    (∃ r, process_user_input throwingEnv authedState
        "how is everything" = .ok r) ∧
    route_authenticated_request throwingEnv "how is everything" =
      .ok (.systemError "database failure") :=
  ⟨by decide,
   (turn_dispatch_catches throwingEnv authedState "how is everything"
      "how is everything" "database failure" (by decide)).1,
   (turn_dispatch_catches throwingEnv authedState "how is everything"
      "how is everything" "database failure" (by decide)).2
     (by decide) rfl⟩
